import Mathlib

/-!
Verification of the PayerHub core against its specification.

This file gives a shallow embedding, in Lean 4, of the three core modules of
the repository:

* `src/privacy_layer/privacy_manager.py` — consent store, PHI masking,
  access gate and audit log;
* `src/event_middleware/kafka_handler.py` — event publishing and the
  consuming loop with dead-letter routing;
* `src/orchestrator.py` — the document-processing pipeline.

Modelling conventions, used throughout:

* Timestamps (`datetime.now()`) are abstract clock values of type `Nat`,
  supplied in an environment record; `timedelta(days = d)` is `Nat`
  addition.  Only comparisons and equality are ever performed on them in
  the source, so this is faithful.
* Python strings that are only sliced and concatenated are modelled as
  `String`; where character-level slicing matters (PHI masking) values are
  `List Char` (a Python `str` is a sequence of characters).
* `hashlib.sha256(x).hexdigest()[:16].upper()` id generation is modelled by
  the preimage string `x` itself: the hash is used only as an opaque
  identifier, and the preimage is an injective stand-in.
* Database failures: the source lets the audit `INSERT` raise (`raise` in
  `create_audit_log`); this is modelled by `auditError : Option String` in
  the environment.  Consent-table reads/writes catch their own errors in
  the source and are modelled as infallible.
* Fallible Python code (code that may raise) returns `Except String α`;
  mutable database/broker state is passed explicitly.
* `uuid.uuid4()`-generated identifiers are externally supplied random
  strings; they are fields of the environment record.
-/

namespace PayerHub

/-! ## Privacy layer: data model (`privacy_manager.py`) -/

/-- `ConsentStatus` enum: active / revoked / expired / pending. -/
inductive ConsentStatus where
  | active
  | revoked
  | expired
  | pending
deriving DecidableEq, Repr

/-- `DataAccessLevel` enum: full / limited / none. -/
inductive DataAccessLevel where
  | full
  | limited
  | none
deriving DecidableEq, Repr

/-- `.value` of the `DataAccessLevel` enum. -/
def DataAccessLevel.value : DataAccessLevel → String
  | DataAccessLevel.full => "full"
  | DataAccessLevel.limited => "limited"
  | DataAccessLevel.none => "none"

/-- `ConsentRecord` dataclass.  `metadata` (opaque JSON) is a key/value list. -/
structure ConsentRecord where
  consent_id : String
  patient_id : String
  organization_id : String
  purpose : String
  status : ConsentStatus
  granted_date : Nat
  expiry_date : Option Nat
  scope : List String
  metadata : List (String × String)
deriving DecidableEq, Repr

/-- `AuditLog` dataclass (one audit-log table row). -/
structure AuditLogEntry where
  log_id : String
  timestamp : Nat
  user_id : String
  action : String
  resource_type : String
  resource_id : String
  patient_id : String
  access_level : String
  ip_address : Option String
  success : Bool
  details : List (String × String)
deriving DecidableEq, Repr

/-- `PrivacyCheckResult` dataclass. -/
structure PrivacyCheckResult where
  allowed : Bool
  access_level : DataAccessLevel
  consent_status : ConsentStatus
  reason : String
  masked_fields : List String
  audit_log_id : String
deriving DecidableEq, Repr

/-- Environment of a `PrivacyManager` call: the current clock, whether the
audit-log `INSERT` raises (and with which message), and the configured
`consent_duration_days` (source default 365). -/
structure PrivacyEnv where
  now : Nat
  auditError : Option String
  consent_duration_days : Nat
deriving DecidableEq, Repr

/-- Mutable database state of the privacy layer: the `consents` table, the
`audit_logs` table, and the trace of attempted audit inserts
(`audit_attempts` instruments every call to `create_audit_log`, delivered
or not, so that call counts can be stated). -/
structure PrivacyState where
  consents : List ConsentRecord
  audit_logs : List AuditLogEntry
  audit_attempts : List AuditLogEntry
deriving DecidableEq, Repr

/-- `_define_phi_fields`: direct identifiers. -/
def phi_direct_identifiers : List String :=
  ["name", "ssn", "medical_record_number", "account_number",
   "certificate_number", "vehicle_identifier", "device_identifier",
   "url", "ip_address", "biometric_identifier", "photo",
   "email_address", "phone_number", "fax_number"]

/-- `_define_phi_fields`: dates. -/
def phi_dates : List String :=
  ["date_of_birth", "admission_date", "discharge_date",
   "death_date", "service_date", "appointment_date"]

/-- `_define_phi_fields`: geographic. -/
def phi_geographic : List String :=
  ["street_address", "city", "county", "zip_code", "geocode"]

/-- `_define_phi_fields`: financial. -/
def phi_financial : List String :=
  ["insurance_id", "member_id", "policy_number",
   "account_number", "claim_number"]

/-- All PHI fields, in the dict-iteration order of the source
(`for category in self.phi_fields.values(): all_phi_fields.extend(category)`).
Note `account_number` occurs twice, as in the source. -/
def all_phi_fields : List String :=
  phi_direct_identifiers ++ phi_dates ++ phi_geographic ++ phi_financial

/-! ## Privacy layer: consent store operations -/

/-- The SQL row filter of `get_consent`: matching patient, organization,
(optionally) purpose, and `status = 'active'`. -/
def consent_row_matches (pid oid : String) (purpose : Option String)
    (c : ConsentRecord) : Bool :=
  decide (c.patient_id = pid) && decide (c.organization_id = oid) &&
    (match purpose with
     | Option.some p => decide (c.purpose = p)
     | Option.none => true) &&
    decide (c.status = ConsentStatus.active)

/-- `ORDER BY granted_date DESC LIMIT 1`: keep the row with the greatest
`granted_date` (first such row on ties, which SQL leaves unspecified). -/
def pick_most_recent : Option ConsentRecord → ConsentRecord → Option ConsentRecord
  | Option.none, c => some c
  | Option.some b, c => if b.granted_date < c.granted_date then some c else some b

/-- `get_consent`: most recent `active` consent row for the triple. -/
def get_consent (consents : List ConsentRecord) (pid oid : String)
    (purpose : Option String) : Option ConsentRecord :=
  (consents.filter (consent_row_matches pid oid purpose)).foldl pick_most_recent Option.none

/-- `_update_consent_status`: `UPDATE consents SET status = .. WHERE consent_id = ..`. -/
def update_consent_status (consents : List ConsentRecord) (cid : String)
    (status : ConsentStatus) : List ConsentRecord :=
  consents.map (fun c => if c.consent_id = cid then { c with status := status } else c)

/-- `check_consent`: deny when no active record; lazily expire (and deny) when
`now > expiry_date`; otherwise approve iff every requested scope item is in
the record scope. -/
def check_consent (env : PrivacyEnv) (st : PrivacyState)
    (patient_id organization_id purpose : String)
    (requested_scope : List String) : Bool × PrivacyState :=
  match get_consent st.consents patient_id organization_id (some purpose) with
  | Option.none => (false, st)
  | Option.some consent =>
    let scope_ok := requested_scope.all (fun item => consent.scope.contains item)
    match consent.expiry_date with
    | Option.some e =>
      if env.now > e then
        (false, { st with consents :=
          update_consent_status st.consents consent.consent_id ConsentStatus.expired })
      else (scope_ok, st)
    | Option.none => (scope_ok, st)

/-- `_generate_consent_id`: stand-in for
`sha256(patient:org:timestamp)[:16].upper()` (the preimage string). -/
def generate_consent_id (patient_id organization_id : String) (now : Nat) : String :=
  patient_id ++ ":" ++ organization_id ++ ":" ++ toString now

/-- `_store_consent`: `INSERT .. ON CONFLICT (consent_id) DO UPDATE SET
status = EXCLUDED.status, expiry_date = EXCLUDED.expiry_date`. -/
def store_consent (consents : List ConsentRecord) (c : ConsentRecord) :
    List ConsentRecord :=
  if consents.any (fun r => decide (r.consent_id = c.consent_id)) then
    consents.map (fun r =>
      if r.consent_id = c.consent_id then
        { r with status := c.status, expiry_date := c.expiry_date }
      else r)
  else consents ++ [c]

/-- Python `a or b` on an optional integer (`None` and `0` are falsy). -/
def py_or_nat : Option Nat → Nat → Nat
  | Option.some n, d => if n = 0 then d else n
  | Option.none, d => d

/-- `create_consent`: build a new `active` record (expiry = grant time plus
duration) and store it.  It touches no other row of the consent table. -/
def create_consent (env : PrivacyEnv) (st : PrivacyState)
    (patient_id organization_id purpose : String) (scope : List String)
    (duration_days : Option Nat) : ConsentRecord × PrivacyState :=
  let consent_id := generate_consent_id patient_id organization_id env.now
  let granted_date := env.now
  let duration := py_or_nat duration_days env.consent_duration_days
  let expiry_date := granted_date + duration
  let consent : ConsentRecord :=
    { consent_id := consent_id
      patient_id := patient_id
      organization_id := organization_id
      purpose := purpose
      status := ConsentStatus.active
      granted_date := granted_date
      expiry_date := some expiry_date
      scope := scope
      metadata := [("created_at", toString granted_date), ("source", "PayerHub Integration")] }
  (consent, { st with consents := store_consent st.consents consent })

/-! ## Privacy layer: PHI masking -/

/-- A data record (`Dict[str, Any]`): a finite map from field name to a
character-sequence value, as a key/value list (a Python dict has unique
keys; nothing below assumes it). -/
abbrev DataRecord := List (String × List Char)

/-- `masked_data[field] = value`: assignment to a key already present. -/
def dict_insert (m : DataRecord) (field : String) (v : List Char) : DataRecord :=
  m.map (fun p => if p.1 = field then (p.1, v) else p)

/-- The constant redaction token of `mask_phi_data`. -/
def redacted_token : List Char := "***REDACTED***".data

/-- The `LIMITED` per-value mask:
`value[:2] + mask * (len(value) - 4) + value[-2:]` when `len(value) > 4`,
else the 3-character token. -/
def limited_mask (v : List Char) : List Char :=
  if v.length > 4 then
    v.take 2 ++ List.replicate (v.length - 4) '*' ++ v.drop (v.length - 2)
  else ['*', '*', '*']

/-- The value written by the masking loop body (`NONE` and `LIMITED` are the
only levels that reach the loop; `FULL` returns before it). -/
def masked_value : DataAccessLevel → List Char → List Char
  | DataAccessLevel.none, _ => redacted_token
  | DataAccessLevel.limited, v => limited_mask v
  | DataAccessLevel.full, v => v

/-- One iteration of the masking loop: `if field in masked_data: ...`. -/
def mask_field (lvl : DataAccessLevel) (m : DataRecord) (field : String) : DataRecord :=
  match m.lookup field with
  | Option.none => m
  | Option.some v => dict_insert m field (masked_value lvl v)

/-- `mask_phi_data`: identity for `FULL`, else fold the masking loop over
`all_phi_fields`. -/
def mask_phi_data (data : DataRecord) (access_level : DataAccessLevel) : DataRecord :=
  if access_level = DataAccessLevel.full then data
  else all_phi_fields.foldl (mask_field access_level) data

/-! ## Privacy layer: audit log and access gate -/

/-- `create_audit_log` id: stand-in for
`sha256(user:action:resource:timestamp)[:16].upper()` (the preimage string). -/
def generate_log_id (user_id action resource_id : String) (now : Nat) : String :=
  user_id ++ ":" ++ action ++ ":" ++ resource_id ++ ":" ++ toString now

/-- `create_audit_log`: build the entry and `INSERT` it.  On database failure
the transaction is rolled back and the exception is re-raised (`raise`); the
attempt is always recorded in the `audit_attempts` call trace. -/
def create_audit_log (env : PrivacyEnv) (st : PrivacyState)
    (user_id action resource_type resource_id patient_id access_level : String)
    (success : Bool) (ip_address : Option String)
    (details : List (String × String)) : Except String String × PrivacyState :=
  let log_id := generate_log_id user_id action resource_id env.now
  let entry : AuditLogEntry :=
    { log_id := log_id
      timestamp := env.now
      user_id := user_id
      action := action
      resource_type := resource_type
      resource_id := resource_id
      patient_id := patient_id
      access_level := access_level
      ip_address := ip_address
      success := success
      details := details }
  let st1 := { st with audit_attempts := st.audit_attempts ++ [entry] }
  match env.auditError with
  | Option.some e => (Except.error e, st1)
  | Option.none =>
    (Except.ok log_id, { st1 with audit_logs := st1.audit_logs ++ [entry] })

/-- `check_access`: run `check_consent`; on deny write an `ACCESS_DENIED`
audit entry and return a deny result; on allow compute the access level and
masked-field list, write an `ACCESS_GRANTED` audit entry and return an allow
result.  An audit exception propagates (`Except.error`). -/
def check_access (env : PrivacyEnv) (st : PrivacyState)
    (user_id patient_id organization_id purpose : String)
    (requested_scope : List String) (ip_address : Option String) :
    Except String PrivacyCheckResult × PrivacyState :=
  let checked := check_consent env st patient_id organization_id purpose requested_scope
  let has_consent := checked.1
  let st1 := checked.2
  if has_consent = false then
    match create_audit_log env st1 user_id "ACCESS_DENIED" "PATIENT_DATA"
        patient_id patient_id "NONE" false ip_address
        [("reason", "No valid consent")] with
    | (Except.error e, st2) => (Except.error e, st2)
    | (Except.ok audit_log_id, st2) =>
      (Except.ok
        { allowed := false
          access_level := DataAccessLevel.none
          consent_status := ConsentStatus.revoked
          reason := "No valid consent found"
          masked_fields := []
          audit_log_id := audit_log_id }, st2)
  else
    let access_level :=
      if requested_scope.contains "full_access" then DataAccessLevel.full
      else if requested_scope.contains "limited_access" then DataAccessLevel.limited
      else DataAccessLevel.limited
    let masked_fields :=
      if access_level ≠ DataAccessLevel.full then all_phi_fields else []
    match create_audit_log env st1 user_id "ACCESS_GRANTED" "PATIENT_DATA"
        patient_id patient_id access_level.value true ip_address
        [("purpose", purpose), ("scope", String.intercalate "," requested_scope)] with
    | (Except.error e, st2) => (Except.error e, st2)
    | (Except.ok audit_log_id, st2) =>
      (Except.ok
        { allowed := true
          access_level := access_level
          consent_status := ConsentStatus.active
          reason := "Valid consent found"
          masked_fields := if access_level ≠ DataAccessLevel.full then masked_fields else []
          audit_log_id := audit_log_id }, st2)

/-! ## Event middleware (`kafka_handler.py`) -/

/-- `EventType` enum (the eight fixed pipeline event types). -/
inductive EventType where
  | document_received
  | ocr_completed
  | entity_extracted
  | anomaly_detected
  | fhir_converted
  | privacy_checked
  | hub_updated
  | error_occurred
deriving DecidableEq, Repr

/-- `.value` of the `EventType` enum (the wire string). -/
def EventType.value : EventType → String
  | EventType.document_received => "document.received"
  | EventType.ocr_completed => "ocr.completed"
  | EventType.entity_extracted => "entity.extracted"
  | EventType.anomaly_detected => "anomaly.detected"
  | EventType.fhir_converted => "fhir.converted"
  | EventType.privacy_checked => "privacy.checked"
  | EventType.hub_updated => "hub.updated"
  | EventType.error_occurred => "error.occurred"

/-- `EventType(s)` construction from the wire string; `Option.none` models the
`ValueError` raised on an unknown value. -/
def EventType.ofValue : String → Option EventType
  | "document.received" => some EventType.document_received
  | "ocr.completed" => some EventType.ocr_completed
  | "entity.extracted" => some EventType.entity_extracted
  | "anomaly.detected" => some EventType.anomaly_detected
  | "fhir.converted" => some EventType.fhir_converted
  | "privacy.checked" => some EventType.privacy_checked
  | "hub.updated" => some EventType.hub_updated
  | "error.occurred" => some EventType.error_occurred
  | _ => Option.none

/-- Opaque event payload dictionaries (`Dict[str, Any]`), flattened to string
key/value pairs; nested values are stringified. -/
abbrev EventData := List (String × String)

/-- A consumed `Event` (the dataclass of `kafka_handler.py`), after parsing.
`event_id` and `timestamp` are carried opaquely. -/
structure ConsEvent where
  event_id : String
  event_type : EventType
  timestamp : String
  source : String
  data : EventData
  metadata : EventData
  correlation_id : Option String
deriving DecidableEq, Repr

/-- The deserialized dict `message.value` delivered to the consumer loop;
`Option.none` fields model keys missing from the dict (`KeyError` on access;
`correlation_id` is read with `.get`, which never raises). -/
structure MessageValue where
  event_id : Option String
  event_type : Option String
  timestamp : Option String
  source : Option String
  data : Option EventData
  metadata : Option EventData
  correlation_id : Option String
deriving DecidableEq, Repr

/-- The event-parsing prefix of the consumer loop body
(`EventType(event_dict[..])` plus the required key accesses); `Option.none`
models the exception caught by the inner `except` clause. -/
def parse_message (m : MessageValue) : Option ConsEvent :=
  match m.event_type with
  | Option.none => Option.none
  | Option.some ts =>
    match EventType.ofValue ts with
    | Option.none => Option.none
    | Option.some et =>
      match m.event_id, m.timestamp, m.source, m.data, m.metadata with
      | Option.some eid, Option.some tstamp, Option.some src,
        Option.some d, Option.some md =>
        some { event_id := eid, event_type := et, timestamp := tstamp,
               source := src, data := d, metadata := md,
               correlation_id := m.correlation_id }
      | _, _, _, _, _ => Option.none

/-- A registered handler: it either returns or raises with a message. -/
def Handler := ConsEvent → Except String Unit

/-- A dead-letter-queue entry, as built by `_send_to_dead_letter_queue`:
the original event, the error string, and a timestamp. -/
structure DlqEntry where
  original_event : ConsEvent
  error : String
  timestamp : String
deriving DecidableEq, Repr

/-- Consumer-loop state: the trace of `producer.send` calls to the
dead-letter topic, and `message_count`. -/
structure ConsumeState where
  dlqSends : List DlqEntry
  message_count : Nat
deriving DecidableEq, Repr

/-- `_send_to_dead_letter_queue`: one `producer.send` to the dead-letter
topic (its own broker errors are caught and swallowed; `dlqSends` records
the attempted send). -/
def send_to_dead_letter_queue (now : String) (st : ConsumeState)
    (event : ConsEvent) (error : String) : ConsumeState :=
  { st with dlqSends :=
      st.dlqSends ++ [{ original_event := event, error := error, timestamp := now }] }

/-- The handler-dispatch loop of `consume_events`: each registered handler
runs; a raising handler is caught and its event forwarded to the dead-letter
queue.  (An event type absent from the registry behaves as an empty list.) -/
def run_handlers (now : String) (st : ConsumeState) (event : ConsEvent)
    (hs : List Handler) : ConsumeState :=
  hs.foldl (fun acc h =>
    match h event with
    | Except.ok _ => acc
    | Except.error e => send_to_dead_letter_queue now acc event e) st

/-- The body of the consumer loop for one message: parse (a parsing
exception is caught by the inner `except` and the loop continues without
counting the message), dispatch handlers, then `message_count += 1`. -/
def process_message (handlers : EventType → List Handler) (now : String)
    (st : ConsumeState) (m : MessageValue) : ConsumeState :=
  match parse_message m with
  | Option.none => st
  | Option.some event =>
    let st1 := run_handlers now st event (handlers event.event_type)
    { st1 with message_count := st1.message_count + 1 }

/-- Python truthiness of the `max_messages and message_count >= max_messages`
break condition (`None` and `0` are falsy). -/
def break_after (max_messages : Option Nat) (count : Nat) : Bool :=
  match max_messages with
  | Option.none => false
  | Option.some n => decide (n ≠ 0) && decide (count ≥ n)

/-- The `for message in consumer` loop of `consume_events`, over a finite
stream of delivered messages.  A parse failure `continue`s (the break check
is skipped); after a counted message the bounded-consumption break may
fire. -/
def consume_loop (handlers : EventType → List Handler) (now : String)
    (max_messages : Option Nat) : ConsumeState → List MessageValue → ConsumeState
  | st, [] => st
  | st, m :: rest =>
    match parse_message m with
    | Option.none => consume_loop handlers now max_messages st rest
    | Option.some event =>
      let st1 := run_handlers now st event (handlers event.event_type)
      let st2 := { st1 with message_count := st1.message_count + 1 }
      if break_after max_messages st2.message_count then st2
      else consume_loop handlers now max_messages st2 rest

/-- `consume_events`, from a fresh consumer state. -/
def consume_events (handlers : EventType → List Handler) (now : String)
    (max_messages : Option Nat) (messages : List MessageValue) : ConsumeState :=
  consume_loop handlers now max_messages { dlqSends := [], message_count := 0 } messages

/-! ## Orchestrator (`orchestrator.py`) -/

/-- Published-event record.  `publish_event` builds the `Event`, sends it and
waits for the acknowledgment; it catches every exception and returns a
boolean, so from the orchestrator's perspective it never raises.  The trace
records each publish attempt.  (`event_id` — a fresh `uuid4` — and the
constant `metadata` dict are omitted: external randomness and constants not
examined by any claim.) -/
structure PubEvent where
  event_type : EventType
  source : String
  correlation_id : Option String
  data : EventData
deriving DecidableEq, Repr

/-- `OCRResult` (collaborator output; floats carried as opaque `Nat` tokens —
no arithmetic is performed on them in the orchestrator). -/
structure OCRResult where
  text : String
  confidence : Nat
  structured_fields : EventData
  document_type : String
  metadata : EventData
  processing_time : Nat
deriving DecidableEq, Repr

/-- `Entity` (collaborator output), carried opaquely as its `__dict__`. -/
abbrev Entity := List (String × String)

/-- `ExtractionResult` (collaborator output). -/
structure ExtractionResult where
  entities : List Entity
  patient_info : EventData
  insurance_info : EventData
  clinical_info : EventData
  temporal_info : EventData
  raw_text : String
  metadata : EventData
deriving DecidableEq, Repr

/-- `AnomalyResult` (collaborator output). -/
structure AnomalyResult where
  is_anomaly : Bool
  anomaly_score : Nat
  anomaly_type : String
  issues : List EventData
deriving DecidableEq, Repr

/-- `FHIRConversionResult` (collaborator output). -/
structure FHIRConversionResult where
  resource_type : String
  resource_id : String
  validation_status : Bool
deriving DecidableEq, Repr

/-- The `data` dict handed to `anomaly_detector.detect` (document type, OCR
confidence and text, entity dicts, and the merged info dicts). -/
structure AnomalyInput where
  document_type : String
  confidence : Nat
  text : String
  entities : List Entity
  merged_info : EventData
deriving DecidableEq, Repr

/-- The dict handed to `fhir_mapper.convert_to_fhir`. -/
structure FHIRInput where
  document_type : String
  patient_info : EventData
  insurance_info : EventData
  clinical_info : EventData
  temporal_info : EventData
deriving DecidableEq, Repr

/-- Environment of one `process_document` call: the external collaborators
(each may raise: `Except`), the privacy environment, and the externally
generated identifiers/timestamps. -/
structure OrchEnv where
  process_pdf : String → Except String OCRResult
  process_image : String → Except String OCRResult
  extract_all : String → Except String ExtractionResult
  detect : AnomalyInput → Except String AnomalyResult
  convert_to_fhir : FHIRInput → Except String FHIRConversionResult
  privacy : PrivacyEnv
  gen_document_id : String
  gen_correlation_id : String
  hub_record_id : String
  now_iso : String

/-- Shared mutable state threaded through one `process_document` call: the
broker publish trace and the privacy-layer database. -/
structure OrchState where
  trace : List PubEvent
  privacy : PrivacyState

/-- `publish_event` as seen by the orchestrator: record the attempt on the
trace (broker failures make it return `False`, which every caller ignores;
it never raises). -/
def publish (s : OrchState) (event_type : EventType) (data : EventData)
    (source : String) (correlation_id : Option String) : OrchState :=
  { s with trace := s.trace ++
      [{ event_type := event_type, source := source,
         correlation_id := correlation_id, data := data }] }

/-- `steps['ocr']` entry. -/
structure OcrStep where
  status : String
  confidence : Nat
  document_type : String
deriving DecidableEq, Repr

/-- `steps['entity_extraction']` entry. -/
structure EntityStep where
  status : String
  entities_count : Nat
  patient_info : EventData
  insurance_info : EventData
deriving DecidableEq, Repr

/-- `steps['anomaly_detection']` entry. -/
structure AnomalyStep where
  status : String
  is_anomaly : Bool
  anomaly_type : String
  issues_count : Nat
deriving DecidableEq, Repr

/-- `steps['fhir_conversion']` entry. -/
structure FhirStep where
  status : String
  resource_type : String
  resource_id : String
  validation_status : Bool
deriving DecidableEq, Repr

/-- `steps['privacy_check']` entry. -/
structure PrivacyStep where
  status : String
  access_allowed : Bool
  access_level : String
  audit_log_id : String
deriving DecidableEq, Repr

/-- `steps['hub_update']` entry. -/
structure HubStep where
  status : String
  hub_record_id : Option String
deriving DecidableEq, Repr

/-- The `result['steps']` dict, keyed by the six fixed stage names. -/
structure Steps where
  ocr : Option OcrStep := Option.none
  entity_extraction : Option EntityStep := Option.none
  anomaly_detection : Option AnomalyStep := Option.none
  fhir_conversion : Option FhirStep := Option.none
  privacy_check : Option PrivacyStep := Option.none
  hub_update : Option HubStep := Option.none
deriving DecidableEq, Repr

/-- The run object returned by `process_document`. -/
structure RunResult where
  correlation_id : String
  document_id : String
  status : String
  steps : Steps
  review_reason : Option String := Option.none
  denial_reason : Option String := Option.none
  error : Option String := Option.none
deriving DecidableEq, Repr

/-- `data.get('status') == 'completed'` on an optional step entry. -/
def step_completed {α : Type} (o : Option α) (status_of : α → String) : Bool :=
  match o with
  | Option.some x => decide (status_of x = "completed")
  | Option.none => false

/-- `_get_current_step`: first stage (in pipeline order) whose entry is
absent or not completed; defaults to `hub_update`. -/
def get_current_step (r : RunResult) : String :=
  if step_completed r.steps.ocr OcrStep.status = false then "ocr"
  else if step_completed r.steps.entity_extraction EntityStep.status = false then
    "entity_extraction"
  else if step_completed r.steps.anomaly_detection AnomalyStep.status = false then
    "anomaly_detection"
  else if step_completed r.steps.fhir_conversion FhirStep.status = false then
    "fhir_conversion"
  else if step_completed r.steps.privacy_check PrivacyStep.status = false then
    "privacy_check"
  else "hub_update"

/-- `Path(file_path).suffix`: the extension of the final path component —
nonempty iff the component's last dot sits strictly inside it
(`0 < i < len(name) - 1` in `pathlib`). -/
def path_suffix (file_path : String) : List Char :=
  let name := ((file_path.data.reverse.takeWhile (fun c => c ≠ '/')).reverse)
  match (name.reverse.findIdx? (fun c => c = '.')) with
  | Option.none => []
  | Option.some j =>
    let i := name.length - 1 - j
    if 0 < i ∧ i < name.length - 1 then name.drop i else []

/-- `.lower()` on the suffix. -/
def file_ext_of (file_path : String) : String :=
  String.mk ((path_suffix file_path).map Char.toLower)

/-- `_step_ocr_processing`: publish `DOCUMENT_RECEIVED`, dispatch on the file
extension (raising `ValueError` on an unsupported one), publish
`OCR_COMPLETED` on success. -/
def step_ocr_processing (env : OrchEnv) (s : OrchState)
    (file_path document_type : String) (correlation_id : String) :
    Except String OCRResult × OrchState :=
  let s := publish s EventType.document_received
    [("file_path", file_path), ("document_type", document_type)]
    "ocr_processor" (some correlation_id)
  let file_ext := file_ext_of file_path
  let ocr : Except String OCRResult :=
    if file_ext = ".pdf" then env.process_pdf file_path
    else if file_ext = ".jpg" ∨ file_ext = ".jpeg" ∨ file_ext = ".png" ∨
        file_ext = ".tiff" then env.process_image file_path
    else Except.error ("Unsupported file type: " ++ file_ext)
  match ocr with
  | Except.error e => (Except.error e, s)
  | Except.ok r =>
    let s := publish s EventType.ocr_completed
      [("text", String.mk (r.text.data.take 500)),
       ("confidence", toString r.confidence),
       ("document_type", r.document_type),
       ("processing_time", toString r.processing_time)]
      "ocr_processor" (some correlation_id)
    (Except.ok r, s)

/-- `_step_entity_extraction`: extract, then publish `ENTITY_EXTRACTED`. -/
def step_entity_extraction (env : OrchEnv) (s : OrchState)
    (text : String) (correlation_id : String) :
    Except String ExtractionResult × OrchState :=
  match env.extract_all text with
  | Except.error e => (Except.error e, s)
  | Except.ok r =>
    let s := publish s EventType.entity_extracted
      [("entities_count", toString r.entities.length),
       ("patient_info", toString r.patient_info),
       ("insurance_info", toString r.insurance_info),
       ("clinical_info", toString r.clinical_info)]
      "entity_extractor" (some correlation_id)
    (Except.ok r, s)

/-- `_step_anomaly_detection`: build the detection input (dict-spread merge of
the info dicts), detect, publish `ANOMALY_DETECTED`. -/
def step_anomaly_detection (env : OrchEnv) (s : OrchState)
    (ocr : OCRResult) (ext : ExtractionResult) (document_type : String)
    (correlation_id : String) : Except String AnomalyResult × OrchState :=
  let data : AnomalyInput :=
    { document_type := document_type
      confidence := ocr.confidence
      text := ocr.text
      entities := ext.entities
      merged_info := ext.patient_info ++ ext.insurance_info ++ ext.clinical_info }
  match env.detect data with
  | Except.error e => (Except.error e, s)
  | Except.ok r =>
    let s := publish s EventType.anomaly_detected
      [("is_anomaly", toString r.is_anomaly),
       ("anomaly_type", r.anomaly_type),
       ("anomaly_score", toString r.anomaly_score),
       ("issues", toString r.issues)]
      "anomaly_detector" (some correlation_id)
    (Except.ok r, s)

/-- `_step_fhir_conversion`: convert, publish `FHIR_CONVERTED`. -/
def step_fhir_conversion (env : OrchEnv) (s : OrchState)
    (ext : ExtractionResult) (document_type : String) (correlation_id : String) :
    Except String FHIRConversionResult × OrchState :=
  let input : FHIRInput :=
    { document_type := document_type
      patient_info := ext.patient_info
      insurance_info := ext.insurance_info
      clinical_info := ext.clinical_info
      temporal_info := ext.temporal_info }
  match env.convert_to_fhir input with
  | Except.error e => (Except.error e, s)
  | Except.ok r =>
    let s := publish s EventType.fhir_converted
      [("resource_type", r.resource_type), ("resource_id", r.resource_id),
       ("validation_status", toString r.validation_status)]
      "fhir_mapper" (some correlation_id)
    (Except.ok r, s)

/-- `_step_privacy_check`: `check_access` with purpose `treatment` and
requested scope `['full_access']`, then publish `PRIVACY_CHECKED`. -/
def step_privacy_check (env : OrchEnv) (s : OrchState)
    (patient_id organization_id user_id : String) (correlation_id : String) :
    Except String PrivacyCheckResult × OrchState :=
  match check_access env.privacy s.privacy user_id patient_id organization_id
      "treatment" ["full_access"] Option.none with
  | (Except.error e, p) => (Except.error e, { s with privacy := p })
  | (Except.ok r, p) =>
    let s := { s with privacy := p }
    let s := publish s EventType.privacy_checked
      [("patient_id", patient_id), ("access_allowed", toString r.allowed),
       ("access_level", r.access_level.value), ("audit_log_id", r.audit_log_id)]
      "privacy_manager" (some correlation_id)
    (Except.ok r, s)

/-- `_step_hub_update`: build the (simulated) hub record, publish
`HUB_UPDATED`.  It cannot raise. -/
def step_hub_update (env : OrchEnv) (s : OrchState)
    (fhir : FHIRConversionResult) (correlation_id : String) :
    EventData × OrchState :=
  let hub_result : EventData :=
    [("record_id", env.hub_record_id),
     ("fhir_resource_id", fhir.resource_id),
     ("updated_at", env.now_iso)]
  let s := publish s EventType.hub_updated hub_result
    "hub_integration" (some correlation_id)
  (hub_result, s)

/-- The `except Exception` handler of `process_document`: set status
`failed`, record the error, publish one `ERROR_OCCURRED` event with the
document id, the error and the current step. -/
def fail_run (r : RunResult) (s : OrchState) (e : String) : RunResult × OrchState :=
  let r := { r with status := "failed", error := some e }
  let s := publish s EventType.error_occurred
    [("document_id", r.document_id), ("error", e), ("step", get_current_step r)]
    "orchestrator" (some r.correlation_id)
  (r, s)

/-- `process_document`: the six-stage pipeline with the anomaly and privacy
gates; every stage failure is caught and converted by `fail_run`. -/
def process_document (env : OrchEnv) (s : OrchState)
    (file_path document_type patient_id organization_id user_id : String)
    (correlation_id0 : Option String) : RunResult × OrchState :=
  let correlation_id := correlation_id0.getD env.gen_correlation_id
  let result : RunResult :=
    { correlation_id := correlation_id
      document_id := env.gen_document_id
      status := "processing"
      steps := {} }
  match step_ocr_processing env s file_path document_type correlation_id with
  | (Except.error e, s) => fail_run result s e
  | (Except.ok ocr, s) =>
  let ocr_step : OcrStep :=
    { status := "completed", confidence := ocr.confidence,
      document_type := ocr.document_type }
  let result := { result with steps := { result.steps with ocr := some ocr_step } }
  match step_entity_extraction env s ocr.text correlation_id with
  | (Except.error e, s) => fail_run result s e
  | (Except.ok ext, s) =>
  let ent_step : EntityStep :=
    { status := "completed", entities_count := ext.entities.length,
      patient_info := ext.patient_info, insurance_info := ext.insurance_info }
  let result :=
    { result with steps := { result.steps with entity_extraction := some ent_step } }
  match step_anomaly_detection env s ocr ext document_type correlation_id with
  | (Except.error e, s) => fail_run result s e
  | (Except.ok anomaly, s) =>
  let anom_step : AnomalyStep :=
    { status := "completed", is_anomaly := anomaly.is_anomaly,
      anomaly_type := anomaly.anomaly_type, issues_count := anomaly.issues.length }
  let result :=
    { result with steps := { result.steps with anomaly_detection := some anom_step } }
  if anomaly.is_anomaly then
    let halted :=
      { result with status := "manual_review_required"
                    review_reason := some anomaly.anomaly_type }
    (halted, s)
  else
  match step_fhir_conversion env s ext document_type correlation_id with
  | (Except.error e, s) => fail_run result s e
  | (Except.ok fhir, s) =>
  let fhir_step : FhirStep :=
    { status := "completed", resource_type := fhir.resource_type,
      resource_id := fhir.resource_id, validation_status := fhir.validation_status }
  let result :=
    { result with steps := { result.steps with fhir_conversion := some fhir_step } }
  match step_privacy_check env s patient_id organization_id user_id correlation_id with
  | (Except.error e, s) => fail_run result s e
  | (Except.ok privacy_result, s) =>
  let priv_step : PrivacyStep :=
    { status := "completed", access_allowed := privacy_result.allowed,
      access_level := privacy_result.access_level.value,
      audit_log_id := privacy_result.audit_log_id }
  let result :=
    { result with steps := { result.steps with privacy_check := some priv_step } }
  if privacy_result.allowed = false then
    let halted :=
      { result with status := "access_denied"
                    denial_reason := some privacy_result.reason }
    (halted, s)
  else
  let hub := step_hub_update env s fhir correlation_id
  let s := hub.2
  let hub_step : HubStep :=
    { status := "completed", hub_record_id := (hub.1.lookup "record_id") }
  let result :=
    { result with steps := { result.steps with hub_update := some hub_step } }
  ({ result with status := "completed" }, s)

/-! ## Concrete fixtures (used by witnesses and counterexamples) -/

/-- A privacy environment at clock 100 with a healthy audit database. -/
def fix_env : PrivacyEnv :=
  { now := 100, auditError := Option.none, consent_duration_days := 365 }

/-- The same environment at clock 300 (past the fixture consent's expiry). -/
def fix_env_late : PrivacyEnv :=
  { now := 300, auditError := Option.none, consent_duration_days := 365 }

/-- A privacy environment whose audit-log insert raises. -/
def fix_env_auditfail : PrivacyEnv :=
  { now := 100, auditError := some "db down", consent_duration_days := 365 }

/-- An active consent for `(P1, O1, treatment)` expiring at clock 200. -/
def fix_consent : ConsentRecord :=
  { consent_id := "CID1", patient_id := "P1", organization_id := "O1",
    purpose := "treatment", status := ConsentStatus.active, granted_date := 10,
    expiry_date := some 200, scope := ["full_access", "data_sharing"],
    metadata := [] }

/-- A privacy database holding just `fix_consent`. -/
def fix_state : PrivacyState :=
  { consents := [fix_consent], audit_logs := [], audit_attempts := [] }

/-- A second audit-failing environment, for the C3 witness. -/
def fix_env_auditfail2 : PrivacyEnv :=
  { now := 7, auditError := some "disk full", consent_duration_days := 365 }

/-- A concrete data record with two PHI fields (`name`, `city`) and one
non-PHI field. -/
def fix_record : DataRecord :=
  [("name", "Johnathan".data), ("city", "NY".data), ("note", "hello".data)]

/-- A handler that always raises. -/
def fix_handler : Handler := fun _ => Except.error "boom"

/-- A registry with one (raising) handler for `ocr.completed`. -/
def fix_handlers : EventType → List Handler :=
  fun et => if et = EventType.ocr_completed then [fix_handler] else []

/-- A well-formed consumed message of type `ocr.completed`. -/
def fix_msg : MessageValue :=
  { event_id := some "E1", event_type := some "ocr.completed",
    timestamp := some "T1", source := some "ocr_processor",
    data := some [], metadata := some [], correlation_id := some "C1" }

/-- A well-formed consumed message of type `hub.updated` (no handler). -/
def fix_msg2 : MessageValue :=
  { event_id := some "E2", event_type := some "hub.updated",
    timestamp := some "T2", source := some "hub_integration",
    data := some [], metadata := some [], correlation_id := some "C1" }

/-- The parsed form of `fix_msg`. -/
def fix_event : ConsEvent :=
  { event_id := "E1", event_type := EventType.ocr_completed, timestamp := "T1",
    source := "ocr_processor", data := [], metadata := [],
    correlation_id := some "C1" }

/-- The `ERROR_OCCURRED` events of a publish trace. -/
def error_events (l : List PubEvent) : List PubEvent :=
  l.filter (fun e => decide (e.event_type = EventType.error_occurred))

/-- The `ANOMALY_DETECTED` events of a publish trace. -/
def anomaly_events (l : List PubEvent) : List PubEvent :=
  l.filter (fun e => decide (e.event_type = EventType.anomaly_detected))

/-- A fixture OCR collaborator output. -/
def fix_ocr : OCRResult :=
  { text := "hello doc", confidence := 95, structured_fields := [],
    document_type := "PRIOR_AUTHORIZATION", metadata := [], processing_time := 3 }

/-- A fixture extraction collaborator output. -/
def fix_ext : ExtractionResult :=
  { entities := [[("text", "x")]], patient_info := [("name", "A")],
    insurance_info := [], clinical_info := [], temporal_info := [],
    raw_text := "hello doc", metadata := [] }

/-- A fixture anomaly finding, anomalous iff `b`. -/
def fix_anomaly (b : Bool) : AnomalyResult :=
  { is_anomaly := b, anomaly_score := 1, anomaly_type := "missing_fields",
    issues := [] }

/-- A fixture conversion collaborator output. -/
def fix_fhir : FHIRConversionResult :=
  { resource_type := "Claim", resource_id := "F1", validation_status := true }

/-- A fixture orchestrator environment with healthy collaborators; the
anomaly collaborator reports `is_anomaly = b`. -/
def fix_orch_env (b : Bool) : OrchEnv :=
  { process_pdf := fun _ => Except.ok fix_ocr
    process_image := fun _ => Except.error "img fail"
    extract_all := fun _ => Except.ok fix_ext
    detect := fun _ => Except.ok (fix_anomaly b)
    convert_to_fhir := fun _ => Except.ok fix_fhir
    privacy := { now := 100, auditError := Option.none, consent_duration_days := 365 }
    gen_document_id := "DOC-1", gen_correlation_id := "CORR-1"
    hub_record_id := "HUB-1", now_iso := "T0" }

/-- A fixture orchestrator environment whose extraction stage raises. -/
def fix_orch_env_extract_fails : OrchEnv :=
  { fix_orch_env false with extract_all := fun _ => Except.error "nlp crash" }

/-- The initial orchestrator state: empty trace, fixture consent store. -/
def fix_orch_state : OrchState :=
  { trace := [],
    privacy := { consents := [fix_consent], audit_logs := [], audit_attempts := [] } }

/-! ## Helper lemmas -/

/-- `check_consent` touches only the consent table, never the audit log. -/
theorem check_consent_preserves_audit (env : PrivacyEnv) (st : PrivacyState)
    (pid oid purpose : String) (scope : List String) :
    ((check_consent env st pid oid purpose scope).2).audit_logs = st.audit_logs ∧
    ((check_consent env st pid oid purpose scope).2).audit_attempts = st.audit_attempts := by
  rcases hg : get_consent st.consents pid oid (some purpose) with _ | c
  · simp [check_consent, hg]
  · rcases he : c.expiry_date with _ | e
    · simp [check_consent, hg, he]
    · by_cases hlt : env.now > e <;> simp [check_consent, hg, he, hlt]

/-! ## Claim C5 -/

/-- C5: `check_consent` returns `true` iff the most recent active record for
`(patientId, orgId, purpose)` exists (the record `get_consent` resolves),
is not past its expiry, and every requested scope item is in the record's
scope; and when such a record exists but `now > expiry`, the record's status
is transitioned to `Expired` as a side effect and the check returns
`false`. -/
theorem check_consent_spec (env : PrivacyEnv) (st : PrivacyState)
    (pid oid purpose : String) (scope : List String) :
    ((check_consent env st pid oid purpose scope).1 = true ↔
      ∃ c, get_consent st.consents pid oid (some purpose) = some c ∧
        (∀ e, c.expiry_date = some e → env.now ≤ e) ∧
        (∀ item ∈ scope, item ∈ c.scope)) ∧
    (∀ c e, get_consent st.consents pid oid (some purpose) = some c →
      c.expiry_date = some e → e < env.now →
      (check_consent env st pid oid purpose scope).1 = false ∧
      ((check_consent env st pid oid purpose scope).2).consents =
        update_consent_status st.consents c.consent_id ConsentStatus.expired) := by
  rcases hg : get_consent st.consents pid oid (some purpose) with _ | c
  · constructor
    · simp [check_consent, hg]
    · intro c e hc
      cases hc
  · rcases he : c.expiry_date with _ | e
    · constructor
      · simp only [check_consent, hg, he]
        constructor
        · intro hall
          refine ⟨c, rfl, by simp [he], ?_⟩
          simp only [List.all_eq_true] at hall
          intro item hitem
          simpa using hall item hitem
        · rintro ⟨c', hc', _, hsub⟩
          cases hc'
          simp only [List.all_eq_true]
          intro item hitem
          simpa using hsub item hitem
      · intro c' e hc' he'
        cases hc'
        rw [he] at he'
        cases he'
    · by_cases hlt : env.now > e
      · constructor
        · simp only [check_consent, hg, he, hlt, if_true]
          constructor
          · intro h
            cases h
          · rintro ⟨c', hc', hexp, _⟩
            cases hc'
            have := hexp e he
            omega
        · intro c' e' hc' he' hlt'
          cases hc'
          rw [he] at he'
          cases he'
          simp [check_consent, hg, he, hlt]
      · constructor
        · simp only [check_consent, hg, he, hlt, if_false]
          constructor
          · intro hall
            refine ⟨c, rfl, ?_, ?_⟩
            · intro e' he'
              rw [he] at he'
              cases he'
              omega
            · simp only [List.all_eq_true] at hall
              intro item hitem
              simpa using hall item hitem
          · rintro ⟨c', hc', _, hsub⟩
            cases hc'
            simp only [List.all_eq_true]
            intro item hitem
            simpa using hsub item hitem
        · intro c' e' hc' he' hlt'
          cases hc'
          rw [he] at he'
          cases he'
          omega

/-- Witness for C5 at a concrete store: the fixture consent is found, alive
at clock 100, and covers `[full_access]`, so the check approves. -/
theorem check_consent_spec_witness :
    (check_consent fix_env fix_state "P1" "O1" "treatment" ["full_access"]).1 = true := by
  have h := (check_consent_spec fix_env fix_state "P1" "O1" "treatment" ["full_access"]).1
  refine h.mpr ⟨fix_consent, by decide, ?_, by decide⟩
  intro e he
  simp only [fix_consent, Option.some.injEq] at he
  simp only [fix_env]
  omega

/-! ## Claim C3 -/

/-- C3 counterexample: with a valid consent in place but a failing audit
database, `check_access` does not return a deny decision — the audit
exception propagates to the caller (`Except.error`), contradicting the
claim that the check returns `allowed = false` rather than raising. -/
theorem check_access_audit_failure_counterexample :
    (check_access fix_env_auditfail fix_state "U1" "P1" "O1" "treatment"
      ["full_access"] Option.none).1 = Except.error "db down" := by
  rfl

/-- C3 as amended: if the audit-log write fails, `check_access` never grants
access — but it fails closed by propagating the audit exception to the
caller, not by returning a deny result. -/
theorem check_access_audit_failure_raises (env : PrivacyEnv) (st : PrivacyState)
    (user_id patient_id organization_id purpose : String)
    (requested_scope : List String) (ip_address : Option String) (e : String)
    (h : env.auditError = some e) :
    (check_access env st user_id patient_id organization_id purpose
      requested_scope ip_address).1 = Except.error e := by
  simp only [check_access, create_audit_log, h]
  split <;> rfl

/-- Witness for the amended C3 at a concrete input. -/
theorem check_access_audit_failure_raises_witness :
    (check_access fix_env_auditfail2 fix_state "U2" "P1" "O1" "treatment"
      ["full_access"] Option.none).1 = Except.error "disk full" :=
  check_access_audit_failure_raises fix_env_auditfail2 fix_state "U2" "P1" "O1"
    "treatment" ["full_access"] Option.none "disk full" rfl

/-! ## Claim C4 -/

/-- C4: every `check_access` invocation makes exactly one audit-append call,
whose action is `ACCESS_GRANTED` or `ACCESS_DENIED`; whenever a result is
returned, exactly that entry has been appended to the audit log and the
result carries its log id. -/
theorem check_access_exactly_one_audit (env : PrivacyEnv) (st : PrivacyState)
    (user_id patient_id organization_id purpose : String)
    (requested_scope : List String) (ip_address : Option String) :
    ∃ entry,
      ((check_access env st user_id patient_id organization_id purpose
          requested_scope ip_address).2).audit_attempts =
        st.audit_attempts ++ [entry] ∧
      (entry.action = "ACCESS_GRANTED" ∨ entry.action = "ACCESS_DENIED") ∧
      (∀ r, (check_access env st user_id patient_id organization_id purpose
          requested_scope ip_address).1 = Except.ok r →
        r.audit_log_id = entry.log_id ∧
        ((check_access env st user_id patient_id organization_id purpose
            requested_scope ip_address).2).audit_logs =
          st.audit_logs ++ [entry]) := by
  obtain ⟨hlog, hatt⟩ :=
    check_consent_preserves_audit env st patient_id organization_id purpose requested_scope
  cases hb : (check_consent env st patient_id organization_id purpose requested_scope).1 with
  | false =>
    rcases he : env.auditError with _ | e
    · simp only [check_access, create_audit_log, he]
      rw [if_pos hb]
      refine ⟨_, by rw [hatt], Or.inr rfl, ?_⟩
      intro r hr
      simp only [Except.ok.injEq] at hr
      subst hr
      exact ⟨rfl, by rw [hlog]⟩
    · simp only [check_access, create_audit_log, he]
      rw [if_pos hb]
      refine ⟨_, by rw [hatt], Or.inr rfl, ?_⟩
      intro r hr
      cases hr
  | true =>
    rcases he : env.auditError with _ | e
    · simp only [check_access, create_audit_log, he]
      rw [if_neg (by simp [hb])]
      refine ⟨_, by rw [hatt], Or.inl rfl, ?_⟩
      intro r hr
      simp only [Except.ok.injEq] at hr
      subst hr
      exact ⟨rfl, by rw [hlog]⟩
    · simp only [check_access, create_audit_log, he]
      rw [if_neg (by simp [hb])]
      refine ⟨_, by rw [hatt], Or.inl rfl, ?_⟩
      intro r hr
      cases hr

/-- Witness for C4 at a concrete input (an allow decision). -/
theorem check_access_exactly_one_audit_witness :
    ∃ entry,
      ((check_access fix_env fix_state "U1" "P1" "O1" "treatment"
          ["full_access"] Option.none).2).audit_attempts =
        fix_state.audit_attempts ++ [entry] ∧
      (entry.action = "ACCESS_GRANTED" ∨ entry.action = "ACCESS_DENIED") ∧
      (∀ r, (check_access fix_env fix_state "U1" "P1" "O1" "treatment"
          ["full_access"] Option.none).1 = Except.ok r →
        r.audit_log_id = entry.log_id ∧
        ((check_access fix_env fix_state "U1" "P1" "O1" "treatment"
            ["full_access"] Option.none).2).audit_logs =
          fix_state.audit_logs ++ [entry]) :=
  check_access_exactly_one_audit fix_env fix_state "U1" "P1" "O1" "treatment"
    ["full_access"] Option.none

/-! ## Claim C6 -/

/-- C6 counterexample: when the denial is caused by an expired consent
(clock 300 is past the fixture expiry 200), the returned reason is the
constant `"No valid consent found"` — not `"expired"`, and not the
claim's `"No valid consent"` either. -/
theorem check_access_expired_reason_counterexample :
    (check_access fix_env_late fix_state "U1" "P1" "O1" "treatment"
        ["full_access"] Option.none).1 =
      Except.ok
        { allowed := false
          access_level := DataAccessLevel.none
          consent_status := ConsentStatus.revoked
          reason := "No valid consent found"
          masked_fields := []
          audit_log_id := "U1:ACCESS_DENIED:P1:300" } ∧
    ("No valid consent found" ≠ "expired" ∧
      "No valid consent found" ≠ "No valid consent") := by
  exact ⟨rfl, by decide⟩

/-- C6 as amended: on every consent denial (absent, expired, or insufficient
scope alike) `check_access` returns `allowed = false` with access level
`None`, writes an `ACCESS_DENIED` audit entry whose id the result carries,
and the returned reason is the fixed string `"No valid consent found"` —
there is no distinct `"expired"` reason. -/
theorem check_access_deny_spec (env : PrivacyEnv) (st : PrivacyState)
    (user_id patient_id organization_id purpose : String)
    (requested_scope : List String) (ip_address : Option String)
    (hdeny : (check_consent env st patient_id organization_id purpose
      requested_scope).1 = false)
    (hok : env.auditError = Option.none) :
    ∃ r entry,
      (check_access env st user_id patient_id organization_id purpose
        requested_scope ip_address).1 = Except.ok r ∧
      r.allowed = false ∧
      r.access_level = DataAccessLevel.none ∧
      r.reason = "No valid consent found" ∧
      ((check_access env st user_id patient_id organization_id purpose
          requested_scope ip_address).2).audit_logs =
        st.audit_logs ++ [entry] ∧
      entry.action = "ACCESS_DENIED" ∧
      r.audit_log_id = entry.log_id := by
  obtain ⟨hlog, _⟩ :=
    check_consent_preserves_audit env st patient_id organization_id purpose requested_scope
  simp only [check_access, create_audit_log, hok]
  rw [if_pos hdeny]
  exact ⟨_, _, rfl, rfl, rfl, rfl, by rw [hlog], rfl, rfl⟩

/-- Witness for the amended C6, at the expired-consent input. -/
theorem check_access_deny_spec_witness :
    ∃ r entry,
      (check_access fix_env_late fix_state "U1" "P1" "O1" "treatment"
        ["full_access"] Option.none).1 = Except.ok r ∧
      r.allowed = false ∧
      r.access_level = DataAccessLevel.none ∧
      r.reason = "No valid consent found" ∧
      ((check_access fix_env_late fix_state "U1" "P1" "O1" "treatment"
          ["full_access"] Option.none).2).audit_logs =
        fix_state.audit_logs ++ [entry] ∧
      entry.action = "ACCESS_DENIED" ∧
      r.audit_log_id = entry.log_id :=
  check_access_deny_spec fix_env_late fix_state "U1" "P1" "O1" "treatment"
    ["full_access"] Option.none (by decide) rfl

/-! ## Claim C8 -/

/-- C8 counterexample: starting from a store holding one `Active` consent for
`(P1, O1, treatment)`, `create_consent` for the same triple leaves the prior
record `Active` and adds a second `Active` one — it does not supersede
(revoke) the prior record, so two `Active` consents for the triple coexist. -/
theorem create_consent_no_supersede_counterexample :
    (((create_consent fix_env_late fix_state "P1" "O1" "treatment"
        ["full_access"] Option.none).2).consents.filter
      (consent_row_matches "P1" "O1" (some "treatment"))).length = 2 ∧
    fix_consent ∈ ((create_consent fix_env_late fix_state "P1" "O1" "treatment"
        ["full_access"] Option.none).2).consents ∧
    fix_consent.status = ConsentStatus.active := by
  decide

/-- C8 as amended: `create_consent` with a fresh consent id appends the new
`Active` record and leaves every pre-existing record — including a prior
`Active` one for the same triple — untouched; no supersede/revoke occurs. -/
theorem create_consent_appends_active (env : PrivacyEnv) (st : PrivacyState)
    (patient_id organization_id purpose : String) (scope : List String)
    (duration_days : Option Nat)
    (hfresh : st.consents.any (fun r =>
      decide (r.consent_id = generate_consent_id patient_id organization_id env.now)) = false) :
    ((create_consent env st patient_id organization_id purpose scope
        duration_days).2).consents =
      st.consents ++
        [(create_consent env st patient_id organization_id purpose scope
          duration_days).1] ∧
    ((create_consent env st patient_id organization_id purpose scope
        duration_days).1).status = ConsentStatus.active := by
  constructor
  · simp only [create_consent, store_consent, hfresh]
    simp
  · rfl

/-- Witness for the amended C8 at the fixture store. -/
theorem create_consent_appends_active_witness :
    ((create_consent fix_env_late fix_state "P1" "O1" "treatment"
        ["full_access"] Option.none).2).consents =
      fix_state.consents ++
        [(create_consent fix_env_late fix_state "P1" "O1" "treatment"
          ["full_access"] Option.none).1] ∧
    ((create_consent fix_env_late fix_state "P1" "O1" "treatment"
        ["full_access"] Option.none).1).status = ConsentStatus.active :=
  create_consent_appends_active fix_env_late fix_state "P1" "O1" "treatment"
    ["full_access"] Option.none (by decide)

/-! ## Claim C10 -/

/-- C10: with an active, unexpired consent on file, `check_access` with an
empty requested scope is allowed (the subset check is vacuously true), with
access level `Limited` and `masked_fields` equal to the full PHI list. -/
theorem check_access_empty_scope_limited (env : PrivacyEnv) (st : PrivacyState)
    (user_id patient_id organization_id purpose : String)
    (ip_address : Option String) (c : ConsentRecord)
    (hok : env.auditError = Option.none)
    (hg : get_consent st.consents patient_id organization_id (some purpose) = some c)
    (hexp : ∀ e, c.expiry_date = some e → env.now ≤ e) :
    ∃ r, (check_access env st user_id patient_id organization_id purpose
        [] ip_address).1 = Except.ok r ∧
      r.allowed = true ∧
      r.access_level = DataAccessLevel.limited ∧
      r.masked_fields = all_phi_fields := by
  have hcc : (check_consent env st patient_id organization_id purpose []).1 = true :=
    (check_consent_spec env st patient_id organization_id purpose []).1.mpr
      ⟨c, hg, hexp, by simp⟩
  simp only [check_access, create_audit_log, hok]
  rw [if_neg (by simp [hcc])]
  exact ⟨_, rfl, rfl, rfl, rfl⟩

/-- Witness for C10 at the fixture store (consent alive at clock 100). -/
theorem check_access_empty_scope_limited_witness :
    ∃ r, (check_access fix_env fix_state "U1" "P1" "O1" "treatment"
        [] Option.none).1 = Except.ok r ∧
      r.allowed = true ∧
      r.access_level = DataAccessLevel.limited ∧
      r.masked_fields = all_phi_fields := by
  refine check_access_empty_scope_limited fix_env fix_state "U1" "P1" "O1"
    "treatment" Option.none fix_consent rfl (by decide) ?_
  intro e he
  simp only [fix_consent, Option.some.injEq] at he
  simp only [fix_env]
  omega

/-! ## Claim C7: masking lemmas -/

/-- Assigning to a key changes only that key: lookup after `dict_insert`. -/
theorem lookup_dict_insert (m : DataRecord) (field k : String) (v : List Char) :
    (dict_insert m field v).lookup k =
      if k = field then (m.lookup k).map (fun _ => v) else m.lookup k := by
  induction m with
  | nil => simp [dict_insert]
  | cons p t ih =>
    obtain ⟨a, b⟩ := p
    simp only [dict_insert, List.map_cons] at ih ⊢
    by_cases haf : a = field
    · rw [if_pos haf]
      by_cases hk : k = a
      · subst hk
        have hb : (k == k) = true := beq_self_eq_true k
        rw [if_pos (haf)]
        simp [List.lookup, hb]
      · have hb : (k == a) = false := beq_eq_false_iff_ne.mpr hk
        simp [List.lookup, hb, ih]
    · rw [if_neg haf]
      by_cases hk : k = a
      · subst hk
        have hb : (k == k) = true := beq_self_eq_true k
        have hkf : ¬ k = field := fun hc => haf hc
        simp [List.lookup, hb, hkf]
      · have hb : (k == a) = false := beq_eq_false_iff_ne.mpr hk
        simp [List.lookup, hb, ih]

/-- One masking-loop iteration masks the field it visits (when present). -/
theorem mask_field_lookup_self (lvl : DataAccessLevel) (m : DataRecord)
    (k : String) (v : List Char) (hm : m.lookup k = some v) :
    (mask_field lvl m k).lookup k = some (masked_value lvl v) := by
  simp [mask_field, hm, lookup_dict_insert]

/-- One masking-loop iteration leaves every other key unchanged. -/
theorem mask_field_lookup_ne (lvl : DataAccessLevel) (m : DataRecord)
    (field k : String) (h : k ≠ field) :
    (mask_field lvl m field).lookup k = m.lookup k := by
  cases hm : m.lookup field <;> simp [mask_field, hm, lookup_dict_insert, h]

/-- The `Limited` per-value mask is idempotent (needed because
`account_number` appears twice in `all_phi_fields`, as in the source). -/
theorem limited_mask_idem (v : List Char) :
    limited_mask (limited_mask v) = limited_mask v := by
  by_cases h : v.length > 4
  · have hA : (v.take 2).length = 2 := by
      rw [List.length_take]; omega
    have hR : (List.replicate (v.length - 4) '*').length = v.length - 4 :=
      List.length_replicate _ _
    have hD : (v.drop (v.length - 2)).length = 2 := by
      rw [List.length_drop]; omega
    have hw : (v.take 2 ++ List.replicate (v.length - 4) '*' ++
        v.drop (v.length - 2)).length = v.length := by
      simp only [List.length_append, hA, hR, hD]; omega
    have hinner : limited_mask v = v.take 2 ++ List.replicate (v.length - 4) '*' ++
        v.drop (v.length - 2) := by
      simp only [limited_mask, if_pos h]
    have htake : (v.take 2 ++ List.replicate (v.length - 4) '*' ++
        v.drop (v.length - 2)).take 2 = v.take 2 := by
      have h0 := List.take_left (v.take 2)
        (List.replicate (v.length - 4) '*' ++ v.drop (v.length - 2))
      rw [hA] at h0
      rw [List.append_assoc]
      exact h0
    have hlen2 : (v.take 2 ++ List.replicate (v.length - 4) '*').length =
        v.length - 2 := by
      simp only [List.length_append, hA, hR]; omega
    have hdrop : (v.take 2 ++ List.replicate (v.length - 4) '*' ++
        v.drop (v.length - 2)).drop (v.length - 2) = v.drop (v.length - 2) := by
      rw [← hlen2, List.drop_left]
    rw [hinner]
    simp only [limited_mask, if_pos (show (v.take 2 ++ List.replicate (v.length - 4) '*' ++
      v.drop (v.length - 2)).length > 4 from by rw [hw]; exact h)]
    rw [hw, htake, hdrop]
  · have hinner : limited_mask v = ['*', '*', '*'] := by
      simp only [limited_mask, if_neg h]
    rw [hinner]
    decide

/-- `masked_value` is idempotent at the two levels that reach the loop. -/
theorem masked_value_idem (lvl : DataAccessLevel)
    (h : lvl ≠ DataAccessLevel.full) (v : List Char) :
    masked_value lvl (masked_value lvl v) = masked_value lvl v := by
  cases lvl with
  | none => rfl
  | limited => exact limited_mask_idem v
  | full => exact absurd rfl h

/-- Keys outside the visited field list are untouched by the masking fold. -/
theorem foldl_mask_lookup_not_mem (lvl : DataAccessLevel) (fields : List String)
    (m : DataRecord) (k : String) (hk : k ∉ fields) :
    (fields.foldl (mask_field lvl) m).lookup k = m.lookup k := by
  induction fields generalizing m with
  | nil => rfl
  | cons f rest ih =>
    have hkf : k ≠ f := fun h => hk (h ▸ List.mem_cons_self f rest)
    have hkr : k ∉ rest := fun h => hk (List.mem_cons_of_mem f h)
    simp only [List.foldl_cons]
    rw [ih _ hkr, mask_field_lookup_ne lvl m f k hkf]

/-- Keys inside the visited field list come out masked (idempotence absorbs
repeated visits). -/
theorem foldl_mask_lookup_mem (lvl : DataAccessLevel)
    (h : lvl ≠ DataAccessLevel.full) (fields : List String) (m : DataRecord)
    (k : String) (v : List Char) (hm : m.lookup k = some v) (hk : k ∈ fields) :
    (fields.foldl (mask_field lvl) m).lookup k = some (masked_value lvl v) := by
  induction fields generalizing m v with
  | nil => cases hk
  | cons f rest ih =>
    simp only [List.foldl_cons]
    by_cases hkf : k = f
    · subst hkf
      have h1 : (mask_field lvl m k).lookup k = some (masked_value lvl v) :=
        mask_field_lookup_self lvl m k v hm
      by_cases hkr : k ∈ rest
      · rw [ih _ _ h1 hkr, masked_value_idem lvl h]
      · rw [foldl_mask_lookup_not_mem lvl rest _ k hkr, h1]
    · have hkr : k ∈ rest := by
        cases hk with
        | head => exact absurd rfl hkf
        | tail _ h2 => exact h2
      have h2 : (mask_field lvl m f).lookup k = some v := by
        rw [mask_field_lookup_ne lvl m f k hkf]; exact hm
      exact ih _ _ h2 hkr

/-- C7: `mask_phi_data` is the identity at level `Full`; at level `None`
every PHI field present in the record becomes the constant redaction token;
at level `Limited` every present PHI value longer than 4 characters keeps
its first two and last two characters with a star interior of the same
total length, and values of length at most 4 become the 3-character token;
non-PHI fields are never touched. -/
theorem mask_phi_data_spec (d : DataRecord) (f : String) (v : List Char) :
    mask_phi_data d DataAccessLevel.full = d ∧
    (f ∈ all_phi_fields → d.lookup f = some v →
      (mask_phi_data d DataAccessLevel.none).lookup f = some redacted_token) ∧
    (f ∈ all_phi_fields → d.lookup f = some v → 4 < v.length →
      (mask_phi_data d DataAccessLevel.limited).lookup f =
        some (v.take 2 ++ List.replicate (v.length - 4) '*' ++
          v.drop (v.length - 2)) ∧
      (v.take 2 ++ List.replicate (v.length - 4) '*' ++
        v.drop (v.length - 2)).length = v.length) ∧
    (f ∈ all_phi_fields → d.lookup f = some v → v.length ≤ 4 →
      (mask_phi_data d DataAccessLevel.limited).lookup f = some ['*', '*', '*']) ∧
    (f ∉ all_phi_fields →
      (mask_phi_data d DataAccessLevel.none).lookup f = d.lookup f ∧
      (mask_phi_data d DataAccessLevel.limited).lookup f = d.lookup f) := by
  refine ⟨rfl, ?_, ?_, ?_, ?_⟩
  · intro hf hd
    exact foldl_mask_lookup_mem DataAccessLevel.none (by intro hc; cases hc)
      all_phi_fields d f v hd hf
  · intro hf hd hlen
    constructor
    · have h1 := foldl_mask_lookup_mem DataAccessLevel.limited
        (by intro hc; cases hc) all_phi_fields d f v hd hf
      rw [show (mask_phi_data d DataAccessLevel.limited) =
        all_phi_fields.foldl (mask_field DataAccessLevel.limited) d from rfl, h1]
      simp [masked_value, limited_mask, hlen]
    · have hA : (v.take 2).length = 2 := by rw [List.length_take]; omega
      have hD : (v.drop (v.length - 2)).length = 2 := by rw [List.length_drop]; omega
      simp only [List.length_append, hA, hD, List.length_replicate]
      omega
  · intro hf hd hlen
    have h1 := foldl_mask_lookup_mem DataAccessLevel.limited
      (by intro hc; cases hc) all_phi_fields d f v hd hf
    rw [show (mask_phi_data d DataAccessLevel.limited) =
      all_phi_fields.foldl (mask_field DataAccessLevel.limited) d from rfl, h1]
    simp [masked_value, limited_mask, Nat.not_lt.mpr hlen]
  · intro hf
    exact ⟨foldl_mask_lookup_not_mem DataAccessLevel.none all_phi_fields d f hf,
      foldl_mask_lookup_not_mem DataAccessLevel.limited all_phi_fields d f hf⟩

/-- Witness for C7 on a concrete record: `name` (9 characters) is partially
masked at `Limited` and redacted at `None`, `city` (2 characters) becomes
the 3-star token, and `Full` is the identity. -/
theorem mask_phi_data_spec_witness :
    (mask_phi_data fix_record DataAccessLevel.none).lookup "name" =
        some redacted_token ∧
    (mask_phi_data fix_record DataAccessLevel.limited).lookup "name" =
        some "Jo*****an".data ∧
    (mask_phi_data fix_record DataAccessLevel.limited).lookup "city" =
        some ['*', '*', '*'] ∧
    mask_phi_data fix_record DataAccessLevel.full = fix_record := by
  have h := mask_phi_data_spec fix_record "name" ("Johnathan".data)
  have h9 : ("Johnathan".data).length = 9 := by decide
  refine ⟨h.2.1 (by decide) (by rfl), ?_, ?_, h.1⟩
  · have h2 := (h.2.2.1 (by decide) (by rfl) (by rw [h9]; omega)).1
    rw [h2]
    decide
  · have h3 := mask_phi_data_spec fix_record "city" ("NY".data)
    exact h3.2.2.2.1 (by decide) (by rfl) (by decide)

/-! ## Claim C9: consumer-loop lemmas -/

/-- With no message bound, the consumer loop is a plain fold over the
stream: no message is ever skipped and the loop never stops early. -/
theorem consume_loop_no_max (handlers : EventType → List Handler)
    (now : String) (st : ConsumeState) (msgs : List MessageValue) :
    consume_loop handlers now Option.none st msgs =
      msgs.foldl (process_message handlers now) st := by
  induction msgs generalizing st with
  | nil => rfl
  | cons m rest ih =>
    cases hp : parse_message m with
    | none =>
      simp only [consume_loop, hp, List.foldl_cons, process_message]
      exact ih st
    | some ev =>
      simp only [consume_loop, hp, List.foldl_cons, process_message, break_after]
      exact ih _

/-- Handler dispatch (including dead-letter routing) never changes the
message counter. -/
theorem run_handlers_message_count (now : String) (st : ConsumeState)
    (event : ConsEvent) (hs : List Handler) :
    (run_handlers now st event hs).message_count = st.message_count := by
  induction hs generalizing st with
  | nil => rfl
  | cons h t ih =>
    simp only [run_handlers, List.foldl_cons] at ih ⊢
    cases hh : h event with
    | ok u => exact ih st
    | error e => exact ih _

/-- One loop body counts exactly the parseable messages. -/
theorem process_message_count (handlers : EventType → List Handler)
    (now : String) (st : ConsumeState) (m : MessageValue) :
    (process_message handlers now st m).message_count =
      st.message_count + (if (parse_message m).isSome then 1 else 0) := by
  cases hp : parse_message m with
  | none => simp [process_message, hp]
  | some ev => simp [process_message, hp, run_handlers_message_count]

/-- Folding the loop body counts exactly the parseable messages. -/
theorem foldl_process_count (handlers : EventType → List Handler)
    (now : String) (msgs : List MessageValue) (st : ConsumeState) :
    (msgs.foldl (process_message handlers now) st).message_count =
      st.message_count +
        (msgs.filter (fun x => (parse_message x).isSome)).length := by
  induction msgs generalizing st with
  | nil => simp
  | cons m rest ih =>
    simp only [List.foldl_cons, ih, process_message_count]
    cases hp : parse_message m <;> (simp [hp, List.filter_cons]; try omega)

/-- A message whose single registered handler raises produces exactly one
dead-letter send, holding the original event, the error and a timestamp. -/
theorem process_message_dlq_single (handlers : EventType → List Handler)
    (now : String) (st : ConsumeState) (m : MessageValue) (ev : ConsEvent)
    (e : String) (h : Handler)
    (hp : parse_message m = some ev)
    (hh : handlers ev.event_type = [h])
    (he : h ev = Except.error e) :
    (process_message handlers now st m).dlqSends =
      st.dlqSends ++ [{ original_event := ev, error := e, timestamp := now }] := by
  simp [process_message, hp, hh, run_handlers, he, send_to_dead_letter_queue]

/-- C9: during `consume_events` (no message bound), a consumed event whose
(single) registered handler raises yields exactly one dead-letter entry —
containing the original event, the error and a timestamp — and the consumer
continues with every subsequent message: the whole run equals the fold that
processes all remaining messages, and the final count equals the number of
well-formed messages in the entire stream. -/
theorem consume_events_dead_letter_isolation
    (handlers : EventType → List Handler) (now : String)
    (pre post : List MessageValue) (m : MessageValue) (ev : ConsEvent)
    (e : String) (h : Handler)
    (hp : parse_message m = some ev)
    (hh : handlers ev.event_type = [h])
    (he : h ev = Except.error e) :
    consume_events handlers now Option.none (pre ++ m :: post) =
      post.foldl (process_message handlers now)
        (process_message handlers now
          (pre.foldl (process_message handlers now)
            { dlqSends := [], message_count := 0 }) m) ∧
    (process_message handlers now
        (pre.foldl (process_message handlers now)
          { dlqSends := [], message_count := 0 }) m).dlqSends =
      ((pre.foldl (process_message handlers now)
        { dlqSends := [], message_count := 0 }) : ConsumeState).dlqSends ++
        [{ original_event := ev, error := e, timestamp := now }] ∧
    (consume_events handlers now Option.none (pre ++ m :: post)).message_count =
      ((pre ++ m :: post).filter (fun x => (parse_message x).isSome)).length := by
  refine ⟨?_, process_message_dlq_single handlers now _ m ev e h hp hh he, ?_⟩
  · rw [consume_events, consume_loop_no_max, List.foldl_append, List.foldl_cons]
  · rw [consume_events, consume_loop_no_max, foldl_process_count]
    simp

/-- Witness for C9: the raising `ocr.completed` handler dead-letters its
event once and the following `hub.updated` message is still consumed. -/
theorem consume_events_dead_letter_isolation_witness :
    consume_events fix_handlers "T0" Option.none ([] ++ fix_msg :: [fix_msg2]) =
      [fix_msg2].foldl (process_message fix_handlers "T0")
        (process_message fix_handlers "T0"
          (List.foldl (process_message fix_handlers "T0")
            { dlqSends := [], message_count := 0 } []) fix_msg) ∧
    (process_message fix_handlers "T0"
        (List.foldl (process_message fix_handlers "T0")
          { dlqSends := [], message_count := 0 } []) fix_msg).dlqSends =
      ((List.foldl (process_message fix_handlers "T0")
        { dlqSends := [], message_count := 0 } []) : ConsumeState).dlqSends ++
        [{ original_event := fix_event, error := "boom", timestamp := "T0" }] ∧
    (consume_events fix_handlers "T0" Option.none
        ([] ++ fix_msg :: [fix_msg2])).message_count =
      (([] ++ fix_msg :: [fix_msg2]).filter
        (fun x => (parse_message x).isSome)).length :=
  consume_events_dead_letter_isolation fix_handlers "T0" [] [fix_msg2] fix_msg
    fix_event "boom" fix_handler rfl rfl rfl

/-! ## Claims C1/C2: orchestrator trace lemmas -/

/-- Filtering a trace distributes over append. -/
theorem error_events_append (a b : List PubEvent) :
    error_events (a ++ b) = error_events a ++ error_events b :=
  List.filter_append a b

/-- Filtering a trace distributes over append. -/
theorem anomaly_events_append (a b : List PubEvent) :
    anomaly_events (a ++ b) = anomaly_events a ++ anomaly_events b :=
  List.filter_append a b

/-- Publishing a non-error event leaves the error-event trace unchanged. -/
theorem error_events_publish (s : OrchState) (et : EventType) (data : EventData)
    (src : String) (cid : Option String) (h : et ≠ EventType.error_occurred) :
    error_events ((publish s et data src cid).trace) = error_events s.trace := by
  simp [publish, error_events, List.filter_append, List.filter_cons, h]

/-- Publishing a non-anomaly event leaves the anomaly-event trace unchanged. -/
theorem anomaly_events_publish (s : OrchState) (et : EventType) (data : EventData)
    (src : String) (cid : Option String) (h : et ≠ EventType.anomaly_detected) :
    anomaly_events ((publish s et data src cid).trace) = anomaly_events s.trace := by
  simp [publish, anomaly_events, List.filter_append, List.filter_cons, h]

/-- The OCR stage publishes no error and no anomaly event. -/
theorem step_ocr_trace (env : OrchEnv) (s : OrchState)
    (file_path document_type correlation_id : String) :
    error_events ((step_ocr_processing env s file_path document_type
      correlation_id).2).trace = error_events s.trace ∧
    anomaly_events ((step_ocr_processing env s file_path document_type
      correlation_id).2).trace = anomaly_events s.trace := by
  simp only [step_ocr_processing]
  split
  · constructor
    · rw [error_events_publish _ _ _ _ _ (by intro hc; cases hc)]
    · rw [anomaly_events_publish _ _ _ _ _ (by intro hc; cases hc)]
  · constructor
    · rw [error_events_publish _ _ _ _ _ (by intro hc; cases hc),
        error_events_publish _ _ _ _ _ (by intro hc; cases hc)]
    · rw [anomaly_events_publish _ _ _ _ _ (by intro hc; cases hc),
        anomaly_events_publish _ _ _ _ _ (by intro hc; cases hc)]

/-- The extraction stage publishes no error and no anomaly event. -/
theorem step_entity_trace (env : OrchEnv) (s : OrchState)
    (text correlation_id : String) :
    error_events ((step_entity_extraction env s text correlation_id).2).trace =
      error_events s.trace ∧
    anomaly_events ((step_entity_extraction env s text correlation_id).2).trace =
      anomaly_events s.trace := by
  simp only [step_entity_extraction]
  split
  · exact ⟨rfl, rfl⟩
  · constructor
    · rw [error_events_publish _ _ _ _ _ (by intro hc; cases hc)]
    · rw [anomaly_events_publish _ _ _ _ _ (by intro hc; cases hc)]

/-- The anomaly stage publishes no error event; on success it publishes
exactly one anomaly event carrying the finding, on failure none. -/
theorem step_anomaly_trace (env : OrchEnv) (s : OrchState) (ocr : OCRResult)
    (ext : ExtractionResult) (document_type correlation_id : String) :
    error_events ((step_anomaly_detection env s ocr ext document_type
      correlation_id).2).trace = error_events s.trace ∧
    (∀ r, (step_anomaly_detection env s ocr ext document_type
        correlation_id).1 = Except.ok r →
      anomaly_events ((step_anomaly_detection env s ocr ext document_type
        correlation_id).2).trace =
        anomaly_events s.trace ++
          [{ event_type := EventType.anomaly_detected,
             source := "anomaly_detector",
             correlation_id := some correlation_id,
             data := [("is_anomaly", toString r.is_anomaly),
                      ("anomaly_type", r.anomaly_type),
                      ("anomaly_score", toString r.anomaly_score),
                      ("issues", toString r.issues)] }]) ∧
    (∀ e, (step_anomaly_detection env s ocr ext document_type
        correlation_id).1 = Except.error e →
      anomaly_events ((step_anomaly_detection env s ocr ext document_type
        correlation_id).2).trace = anomaly_events s.trace) := by
  simp only [step_anomaly_detection]
  split
  · refine ⟨rfl, ?_, ?_⟩
    · intro r hr
      cases hr
    · intro e he
      rfl
  · rename_i r hr
    refine ⟨?_, ?_, ?_⟩
    · rw [error_events_publish _ _ _ _ _ (by intro hc; cases hc)]
    · intro r2 hr2
      simp only [Except.ok.injEq] at hr2
      subst hr2
      simp [publish, anomaly_events, List.filter_append, List.filter_cons]
    · intro e he
      cases he

/-- The conversion stage publishes no error and no anomaly event. -/
theorem step_fhir_trace (env : OrchEnv) (s : OrchState)
    (ext : ExtractionResult) (document_type correlation_id : String) :
    error_events ((step_fhir_conversion env s ext document_type
      correlation_id).2).trace = error_events s.trace ∧
    anomaly_events ((step_fhir_conversion env s ext document_type
      correlation_id).2).trace = anomaly_events s.trace := by
  simp only [step_fhir_conversion]
  split
  · exact ⟨rfl, rfl⟩
  · constructor
    · rw [error_events_publish _ _ _ _ _ (by intro hc; cases hc)]
    · rw [anomaly_events_publish _ _ _ _ _ (by intro hc; cases hc)]

/-- The privacy stage publishes no error and no anomaly event. -/
theorem step_privacy_trace (env : OrchEnv) (s : OrchState)
    (patient_id organization_id user_id correlation_id : String) :
    error_events ((step_privacy_check env s patient_id organization_id user_id
      correlation_id).2).trace = error_events s.trace ∧
    anomaly_events ((step_privacy_check env s patient_id organization_id user_id
      correlation_id).2).trace = anomaly_events s.trace := by
  simp only [step_privacy_check]
  split
  · exact ⟨rfl, rfl⟩
  · constructor
    · rw [error_events_publish _ _ _ _ _ (by intro hc; cases hc)]
    · rw [anomaly_events_publish _ _ _ _ _ (by intro hc; cases hc)]

/-- The hub stage publishes no error and no anomaly event. -/
theorem step_hub_trace (env : OrchEnv) (s : OrchState)
    (fhir : FHIRConversionResult) (correlation_id : String) :
    error_events ((step_hub_update env s fhir correlation_id).2).trace =
      error_events s.trace ∧
    anomaly_events ((step_hub_update env s fhir correlation_id).2).trace =
      anomaly_events s.trace := by
  simp only [step_hub_update]
  constructor
  · rw [error_events_publish _ _ _ _ _ (by intro hc; cases hc)]
  · rw [anomaly_events_publish _ _ _ _ _ (by intro hc; cases hc)]

/-- The failure handler marks the run failed, records the error, keeps the
partial steps, and publishes exactly one error event with the document id,
the error and the current step — and no anomaly event. -/
theorem fail_run_spec (r : RunResult) (s : OrchState) (e : String) :
    (fail_run r s e).1 =
      { r with status := "failed", error := some e } ∧
    error_events ((fail_run r s e).2).trace =
      error_events s.trace ++
        [{ event_type := EventType.error_occurred, source := "orchestrator",
           correlation_id := some r.correlation_id,
           data := [("document_id", r.document_id), ("error", e),
                    ("step", get_current_step
                      { r with status := "failed", error := some e })] }] ∧
    anomaly_events ((fail_run r s e).2).trace = anomaly_events s.trace := by
  refine ⟨rfl, ?_, ?_⟩
  · simp [fail_run, publish, error_events, List.filter_append, List.filter_cons]
  · simp [fail_run, publish, anomaly_events, List.filter_append, List.filter_cons]

/-! ## Claim C1 -/

/-- C1: `process_document` always returns a run object (it is a total
function of its environment — no exception escapes), whose status is one of
`completed`, `failed`, `manual_review_required`, `access_denied` (never
`processing`); when it is `failed` the error message is recorded on the run
and exactly one `ERROR_OCCURRED` event carrying the document id, the error
and the failing step is published, and when it is not `failed` no
`ERROR_OCCURRED` event is published and no error is recorded. -/
theorem process_document_terminal (env : OrchEnv) (s : OrchState)
    (file_path document_type patient_id organization_id user_id : String)
    (correlation_id0 : Option String) :
    ((process_document env s file_path document_type patient_id organization_id
        user_id correlation_id0).1.status = "completed" ∨
      (process_document env s file_path document_type patient_id organization_id
        user_id correlation_id0).1.status = "failed" ∨
      (process_document env s file_path document_type patient_id organization_id
        user_id correlation_id0).1.status = "manual_review_required" ∨
      (process_document env s file_path document_type patient_id organization_id
        user_id correlation_id0).1.status = "access_denied") ∧
    ((process_document env s file_path document_type patient_id organization_id
        user_id correlation_id0).1.status = "failed" →
      ∃ e, (process_document env s file_path document_type patient_id
          organization_id user_id correlation_id0).1.error = some e ∧
        error_events ((process_document env s file_path document_type patient_id
            organization_id user_id correlation_id0).2).trace =
          error_events s.trace ++
            [{ event_type := EventType.error_occurred, source := "orchestrator",
               correlation_id := some (process_document env s file_path
                 document_type patient_id organization_id user_id
                 correlation_id0).1.correlation_id,
               data := [("document_id", (process_document env s file_path
                   document_type patient_id organization_id user_id
                   correlation_id0).1.document_id),
                 ("error", e),
                 ("step", get_current_step (process_document env s file_path
                   document_type patient_id organization_id user_id
                   correlation_id0).1)] }]) ∧
    ((process_document env s file_path document_type patient_id organization_id
        user_id correlation_id0).1.status ≠ "failed" →
      (process_document env s file_path document_type patient_id organization_id
        user_id correlation_id0).1.error = Option.none ∧
      error_events ((process_document env s file_path document_type patient_id
          organization_id user_id correlation_id0).2).trace =
        error_events s.trace) := by
  obtain ⟨ho1, -⟩ := step_ocr_trace env s file_path document_type
    (correlation_id0.getD env.gen_correlation_id)
  rcases h1 : step_ocr_processing env s file_path document_type
      (correlation_id0.getD env.gen_correlation_id) with ⟨r1, s1⟩
  rw [h1] at ho1
  cases r1 with
  | error e1 =>
    simp only [process_document, h1, fail_run, publish]
    refine ⟨by simp, ?_, ?_⟩
    · intro _
      refine ⟨e1, by simp, ?_⟩
      rw [error_events_append, ho1]
      rfl
    · intro hne
      simp at hne
  | ok ocr =>
  obtain ⟨ho2, -⟩ := step_entity_trace env s1 ocr.text
    (correlation_id0.getD env.gen_correlation_id)
  rcases h2 : step_entity_extraction env s1 ocr.text
      (correlation_id0.getD env.gen_correlation_id) with ⟨r2, s2⟩
  rw [h2] at ho2
  cases r2 with
  | error e2 =>
    simp only [process_document, h1, h2, fail_run, publish]
    refine ⟨by simp, ?_, ?_⟩
    · intro _
      refine ⟨e2, by simp, ?_⟩
      rw [error_events_append, ho2, ho1]
      rfl
    · intro hne
      simp at hne
  | ok ext =>
  obtain ⟨ho3, -, -⟩ := step_anomaly_trace env s2 ocr ext document_type
    (correlation_id0.getD env.gen_correlation_id)
  rcases h3 : step_anomaly_detection env s2 ocr ext document_type
      (correlation_id0.getD env.gen_correlation_id) with ⟨r3, s3⟩
  rw [h3] at ho3
  cases r3 with
  | error e3 =>
    simp only [process_document, h1, h2, h3, fail_run, publish]
    refine ⟨by simp, ?_, ?_⟩
    · intro _
      refine ⟨e3, by simp, ?_⟩
      rw [error_events_append, ho3, ho2, ho1]
      rfl
    · intro hne
      simp at hne
  | ok anomaly =>
  cases hb : anomaly.is_anomaly with
  | true =>
    simp only [process_document, h1, h2, h3, hb, Bool.false_eq_true, Bool.true_eq_false, if_false, reduceIte]
    refine ⟨by simp, ?_, ?_⟩
    · intro hf
      simp at hf
    · intro _
      exact ⟨by trivial, by rw [ho3, ho2, ho1]⟩
  | false =>
  obtain ⟨ho4, -⟩ := step_fhir_trace env s3 ext document_type
    (correlation_id0.getD env.gen_correlation_id)
  rcases h4 : step_fhir_conversion env s3 ext document_type
      (correlation_id0.getD env.gen_correlation_id) with ⟨r4, s4⟩
  rw [h4] at ho4
  cases r4 with
  | error e4 =>
    simp only [process_document, h1, h2, h3, hb, Bool.false_eq_true, Bool.true_eq_false, if_false, reduceIte, h4, fail_run, publish]
    refine ⟨by simp, ?_, ?_⟩
    · intro _
      refine ⟨e4, by simp, ?_⟩
      rw [error_events_append, ho4, ho3, ho2, ho1]
      rfl
    · intro hne
      simp at hne
  | ok fhir =>
  obtain ⟨ho5, -⟩ := step_privacy_trace env s4 patient_id organization_id user_id
    (correlation_id0.getD env.gen_correlation_id)
  rcases h5 : step_privacy_check env s4 patient_id organization_id user_id
      (correlation_id0.getD env.gen_correlation_id) with ⟨r5, s5⟩
  rw [h5] at ho5
  cases r5 with
  | error e5 =>
    simp only [process_document, h1, h2, h3, hb, Bool.false_eq_true, Bool.true_eq_false, if_false, reduceIte, h4, h5, fail_run, publish]
    refine ⟨by simp, ?_, ?_⟩
    · intro _
      refine ⟨e5, by simp, ?_⟩
      rw [error_events_append, ho5, ho4, ho3, ho2, ho1]
      rfl
    · intro hne
      simp at hne
  | ok privacy_result =>
  cases hal : privacy_result.allowed with
  | false =>
    simp only [process_document, h1, h2, h3, hb, Bool.false_eq_true, Bool.true_eq_false, if_false, reduceIte, h4, h5, hal, Bool.false_eq_true, Bool.true_eq_false, if_false, reduceIte]
    refine ⟨by simp, ?_, ?_⟩
    · intro hf
      simp at hf
    · intro _
      exact ⟨by trivial, by rw [ho5, ho4, ho3, ho2, ho1]⟩
  | true =>
  obtain ⟨ho6, -⟩ := step_hub_trace env s5 fhir
    (correlation_id0.getD env.gen_correlation_id)
  simp only [process_document, h1, h2, h3, hb, Bool.false_eq_true, Bool.true_eq_false, if_false, reduceIte, h4, h5, hal, Bool.false_eq_true, Bool.true_eq_false, if_false, reduceIte]
  refine ⟨by simp, ?_, ?_⟩
  · intro hf
    simp at hf
  · intro _
    exact ⟨by trivial, by rw [ho6, ho5, ho4, ho3, ho2, ho1]⟩

/-- Witness for C1: a run whose extraction stage raises ends `failed` with
the error recorded and exactly one `ERROR_OCCURRED` event published with
that information. -/
theorem process_document_terminal_witness :
    ∃ e, (process_document fix_orch_env_extract_fails fix_orch_state "/x/a.pdf"
        "PA" "P1" "O1" "U1" Option.none).1.error = some e ∧
      error_events ((process_document fix_orch_env_extract_fails fix_orch_state
          "/x/a.pdf" "PA" "P1" "O1" "U1" Option.none).2).trace =
        error_events fix_orch_state.trace ++
          [{ event_type := EventType.error_occurred, source := "orchestrator",
             correlation_id := some (process_document fix_orch_env_extract_fails
               fix_orch_state "/x/a.pdf" "PA" "P1" "O1" "U1"
               Option.none).1.correlation_id,
             data := [("document_id", (process_document fix_orch_env_extract_fails
                 fix_orch_state "/x/a.pdf" "PA" "P1" "O1" "U1"
                 Option.none).1.document_id),
               ("error", e),
               ("step", get_current_step (process_document
                 fix_orch_env_extract_fails fix_orch_state "/x/a.pdf" "PA" "P1"
                 "O1" "U1" Option.none).1)] }] :=
  (process_document_terminal fix_orch_env_extract_fails fix_orch_state "/x/a.pdf"
    "PA" "P1" "O1" "U1" Option.none).2.1 rfl

/-! ## Claim C2 -/

/-- C2: if the recorded anomaly finding of a run reports `is_anomaly = true`
(exactly the value the anomaly collaborator returned), the run halts with
status `manual_review_required` and review reason equal to the reported
anomaly type, the step map has no `fhir_conversion`, `privacy_check` or
`hub_update` entry (those stages never ran), and exactly one
`ANOMALY_DETECTED` event carrying the finding was still published. -/
theorem anomaly_halts_pipeline (env : OrchEnv) (s : OrchState)
    (file_path document_type patient_id organization_id user_id : String)
    (correlation_id0 : Option String) (st : AnomalyStep)
    (hstep : (process_document env s file_path document_type patient_id
      organization_id user_id correlation_id0).1.steps.anomaly_detection = some st)
    (han : st.is_anomaly = true) :
    (process_document env s file_path document_type patient_id organization_id
      user_id correlation_id0).1.status = "manual_review_required" ∧
    (process_document env s file_path document_type patient_id organization_id
      user_id correlation_id0).1.review_reason = some st.anomaly_type ∧
    (process_document env s file_path document_type patient_id organization_id
      user_id correlation_id0).1.steps.fhir_conversion = Option.none ∧
    (process_document env s file_path document_type patient_id organization_id
      user_id correlation_id0).1.steps.privacy_check = Option.none ∧
    (process_document env s file_path document_type patient_id organization_id
      user_id correlation_id0).1.steps.hub_update = Option.none ∧
    ∃ sc iss,
      anomaly_events ((process_document env s file_path document_type patient_id
          organization_id user_id correlation_id0).2).trace =
        anomaly_events s.trace ++
          [{ event_type := EventType.anomaly_detected,
             source := "anomaly_detector",
             correlation_id := some (process_document env s file_path
               document_type patient_id organization_id user_id
               correlation_id0).1.correlation_id,
             data := [("is_anomaly", toString st.is_anomaly),
                      ("anomaly_type", st.anomaly_type),
                      ("anomaly_score", sc), ("issues", iss)] }] := by
  obtain ⟨-, ha1⟩ := step_ocr_trace env s file_path document_type
    (correlation_id0.getD env.gen_correlation_id)
  rcases h1 : step_ocr_processing env s file_path document_type
      (correlation_id0.getD env.gen_correlation_id) with ⟨r1, s1⟩
  rw [h1] at ha1
  cases r1 with
  | error e1 =>
    simp only [process_document, h1, fail_run, publish] at hstep
    cases hstep
  | ok ocr =>
  obtain ⟨-, ha2⟩ := step_entity_trace env s1 ocr.text
    (correlation_id0.getD env.gen_correlation_id)
  rcases h2 : step_entity_extraction env s1 ocr.text
      (correlation_id0.getD env.gen_correlation_id) with ⟨r2, s2⟩
  rw [h2] at ha2
  cases r2 with
  | error e2 =>
    simp only [process_document, h1, h2, fail_run, publish] at hstep
    cases hstep
  | ok ext =>
  obtain ⟨-, hok3, -⟩ := step_anomaly_trace env s2 ocr ext document_type
    (correlation_id0.getD env.gen_correlation_id)
  rcases h3 : step_anomaly_detection env s2 ocr ext document_type
      (correlation_id0.getD env.gen_correlation_id) with ⟨r3, s3⟩
  rw [h3] at hok3
  cases r3 with
  | error e3 =>
    simp only [process_document, h1, h2, h3, fail_run, publish] at hstep
    cases hstep
  | ok anomaly =>
  cases hb : anomaly.is_anomaly with
  | true =>
    simp only [process_document, h1, h2, h3, hb, Bool.false_eq_true,
      Bool.true_eq_false, if_false, reduceIte] at hstep ⊢
    cases hstep
    refine ⟨by trivial, by trivial, by trivial, by trivial, by trivial,
      toString anomaly.anomaly_score, toString anomaly.issues, ?_⟩
    have := hok3 anomaly rfl
    rw [this, ha2, ha1, hb]
  | false =>
  obtain ⟨-, ha4⟩ := step_fhir_trace env s3 ext document_type
    (correlation_id0.getD env.gen_correlation_id)
  rcases h4 : step_fhir_conversion env s3 ext document_type
      (correlation_id0.getD env.gen_correlation_id) with ⟨r4, s4⟩
  cases r4 with
  | error e4 =>
    simp only [process_document, h1, h2, h3, hb, Bool.false_eq_true,
      Bool.true_eq_false, if_false, reduceIte, h4, fail_run, publish] at hstep
    cases hstep
    simp at han
  | ok fhir =>
  rcases h5 : step_privacy_check env s4 patient_id organization_id user_id
      (correlation_id0.getD env.gen_correlation_id) with ⟨r5, s5⟩
  cases r5 with
  | error e5 =>
    simp only [process_document, h1, h2, h3, hb, Bool.false_eq_true,
      Bool.true_eq_false, if_false, reduceIte, h4, h5, fail_run, publish] at hstep
    cases hstep
    simp at han
  | ok privacy_result =>
  cases hal : privacy_result.allowed with
  | false =>
    simp only [process_document, h1, h2, h3, hb, Bool.false_eq_true,
      Bool.true_eq_false, if_false, reduceIte, h4, h5, hal] at hstep
    cases hstep
    simp at han
  | true =>
    simp only [process_document, h1, h2, h3, hb, Bool.false_eq_true,
      Bool.true_eq_false, if_false, reduceIte, h4, h5, hal] at hstep
    cases hstep
    simp at han

/-- Witness for C2: the anomalous fixture run halts in manual review with
the anomaly event still published. -/
theorem anomaly_halts_pipeline_witness :
    (process_document (fix_orch_env true) fix_orch_state "/x/a.pdf" "PA" "P1"
      "O1" "U1" Option.none).1.status = "manual_review_required" ∧
    (process_document (fix_orch_env true) fix_orch_state "/x/a.pdf" "PA" "P1"
      "O1" "U1" Option.none).1.review_reason = some "missing_fields" ∧
    (process_document (fix_orch_env true) fix_orch_state "/x/a.pdf" "PA" "P1"
      "O1" "U1" Option.none).1.steps.fhir_conversion = Option.none ∧
    (process_document (fix_orch_env true) fix_orch_state "/x/a.pdf" "PA" "P1"
      "O1" "U1" Option.none).1.steps.privacy_check = Option.none ∧
    (process_document (fix_orch_env true) fix_orch_state "/x/a.pdf" "PA" "P1"
      "O1" "U1" Option.none).1.steps.hub_update = Option.none ∧
    ∃ sc iss,
      anomaly_events ((process_document (fix_orch_env true) fix_orch_state
          "/x/a.pdf" "PA" "P1" "O1" "U1" Option.none).2).trace =
        anomaly_events fix_orch_state.trace ++
          [{ event_type := EventType.anomaly_detected,
             source := "anomaly_detector",
             correlation_id := some (process_document (fix_orch_env true)
               fix_orch_state "/x/a.pdf" "PA" "P1" "O1" "U1"
               Option.none).1.correlation_id,
             data := [("is_anomaly", toString true),
               ("anomaly_type", "missing_fields"),
               ("anomaly_score", sc), ("issues", iss)] }] :=
  anomaly_halts_pipeline (fix_orch_env true) fix_orch_state "/x/a.pdf" "PA" "P1"
    "O1" "U1" Option.none
    { status := "completed", is_anomaly := true, anomaly_type := "missing_fields", issues_count := 0 }
    rfl rfl

end PayerHub
